import Mathlib

/-!
Shallow embedding of the core of `src/app.py` (solar-retailer web app):
the sizing estimator `get_solar_recommendation` and the application-intake
routes `apply_metering`, `apply_solar_setup`, the status-lookup API
`api_application_status`, and the admin update in `admin_application_detail`.

Python floats are modelled as exact rationals (ℚ); Python `int(x)` is
truncation toward zero; Python `round(x, n)` is round-half-to-even at `n`
decimal places; Python `min(xs, default=d)` is the list minimum with a
default for the empty list.  Flask form data is modelled as `Option`-valued
fields (`None` for an absent key), file uploads as the list of field names
for which a file with a nonempty filename was submitted, and the random
reference suffix / current date as explicit parameters.
-/

namespace SolarApp

/-- Python `int(q)` for a float `q`: truncation toward zero. -/
def pyInt (q : ℚ) : ℤ := if 0 ≤ q then ⌊q⌋ else ⌈q⌉

/-- Python `min(l, default=d)`: `d` on the empty list, otherwise the least
element (computed as a left fold of binary `min`, as CPython does). -/
def pyMinD (l : List ℚ) (d : ℚ) : ℚ :=
  match l with
  | [] => d
  | x :: xs => xs.foldl min x

/-- Python `round(q, n)` at integer precision: round half to even (banker's
rounding), applied to `q * 10^n`. -/
def pyRoundInt (q : ℚ) : ℤ :=
  let f := ⌊q⌋
  if q - f < 1/2 then f
  else if 1/2 < q - f then f + 1
  else if f % 2 = 0 then f else f + 1

/-- Python `round(q, n)`: banker's rounding to `n` decimal places. -/
def pyRound (q : ℚ) (n : ℕ) : ℚ := (pyRoundInt (q * 10 ^ n) : ℚ) / 10 ^ n

/-! ## The sizing estimator (`get_solar_recommendation`, src/app.py:176-235)

Each local variable of the Python function is embedded as a definition of
the same name (suffixed `_val` where it would clash with a record field). -/

/-- `electricity_rate = 25` (PKR per unit). -/
def electricity_rate : ℚ := 25

/-- `peak_sun_hours = 5.5`. -/
def peak_sun_hours : ℚ := 5.5

/-- `system_loss_factor = 0.8`. -/
def system_loss_factor : ℚ := 0.8

/-- `cost_per_kw = 80000`. -/
def cost_per_kw : ℚ := 80000

/-- `standard_capacities = [1, 2, 3, 5, 7, 10, 15, 20, 25, 30, 40, 50]`. -/
def standard_capacities : List ℚ := [1, 2, 3, 5, 7, 10, 15, 20, 25, 30, 40, 50]

/-- `monthly_units = monthly_bill / electricity_rate`. -/
def monthly_units (monthly_bill : ℚ) : ℚ := monthly_bill / electricity_rate

/-- `daily_units = monthly_units / 30`. -/
def daily_units (monthly_bill : ℚ) : ℚ := monthly_units monthly_bill / 30

/-- `required_capacity = daily_units / (peak_sun_hours * system_loss_factor)`. -/
def required_capacity (monthly_bill : ℚ) : ℚ :=
  daily_units monthly_bill / (peak_sun_hours * system_loss_factor)

/-- `recommended_capacity = min([c for c in standard_capacities if c >= required_capacity], default=50)`
(the value before the roof-area override). -/
def ladder_capacity (monthly_bill : ℚ) : ℚ :=
  pyMinD (standard_capacities.filter
      (fun c => decide (required_capacity monthly_bill ≤ c))) 50

/-- `required_area = recommended_capacity * 100`, computed from the ladder value
before the roof-area override and never recomputed. -/
def required_area_val (monthly_bill : ℚ) : ℚ := ladder_capacity monthly_bill * 100

/-- The final `recommended_capacity` after the roof-area override:
`if required_area > roof_area: recommended_capacity = max(1, int(roof_area / 100))`. -/
def recommended_capacity_val (monthly_bill roof_area : ℚ) : ℚ :=
  if required_area_val monthly_bill > roof_area then
    ((max 1 (pyInt (roof_area / 100)) : ℤ) : ℚ)
  else ladder_capacity monthly_bill

/-- `total_cost = recommended_capacity * cost_per_kw`. -/
def total_cost (monthly_bill roof_area : ℚ) : ℚ :=
  recommended_capacity_val monthly_bill roof_area * cost_per_kw

/-- `monthly_generation = recommended_capacity * peak_sun_hours * 30 * system_loss_factor`. -/
def monthly_generation_val (monthly_bill roof_area : ℚ) : ℚ :=
  recommended_capacity_val monthly_bill roof_area * peak_sun_hours * 30 * system_loss_factor

/-- `monthly_savings = monthly_generation * electricity_rate`. -/
def monthly_savings_val (monthly_bill roof_area : ℚ) : ℚ :=
  monthly_generation_val monthly_bill roof_area * electricity_rate

/-- `annual_savings = monthly_savings * 12`. -/
def annual_savings_val (monthly_bill roof_area : ℚ) : ℚ :=
  monthly_savings_val monthly_bill roof_area * 12

/-- `payback_years = total_cost / annual_savings if annual_savings > 0 else 0`. -/
def payback_years (monthly_bill roof_area : ℚ) : ℚ :=
  if annual_savings_val monthly_bill roof_area > 0 then
    total_cost monthly_bill roof_area / annual_savings_val monthly_bill roof_area
  else 0

/-- `annual_carbon_offset = (monthly_generation * 12 * 0.453592) / 1000`. -/
def annual_carbon_offset (monthly_bill roof_area : ℚ) : ℚ :=
  monthly_generation_val monthly_bill roof_area * 12 * 0.453592 / 1000

/-- The estimator's returned dictionary. -/
structure Recommendation where
  recommended_capacity : ℚ
  monthly_consumption : ℚ
  estimated_cost : ℚ
  monthly_savings : ℚ
  annual_savings : ℚ
  payback_period : ℚ
  carbon_offset : ℚ
  net_metering_eligible : Bool
  required_area : ℚ
  monthly_generation : ℚ
  deriving Repr, DecidableEq

/-- `get_solar_recommendation(monthly_bill, roof_area, property_type)`:
the full estimator, returning the record built at src/app.py:223-234.
`property_type` is accepted and ignored, exactly as in the source. -/
def get_solar_recommendation (monthly_bill roof_area : ℚ) (_property_type : String) :
    Recommendation :=
  { recommended_capacity := recommended_capacity_val monthly_bill roof_area
    monthly_consumption := pyRound (monthly_units monthly_bill) 2
    estimated_cost := total_cost monthly_bill roof_area
    monthly_savings := pyRound (monthly_savings_val monthly_bill roof_area) 2
    annual_savings := pyRound (annual_savings_val monthly_bill roof_area) 2
    payback_period := pyRound (payback_years monthly_bill roof_area) 1
    carbon_offset := pyRound (annual_carbon_offset monthly_bill roof_area) 2
    net_metering_eligible := decide (recommended_capacity_val monthly_bill roof_area ≥ 5)
    required_area := required_area_val monthly_bill
    monthly_generation := pyRound (monthly_generation_val monthly_bill roof_area) 2 }

/-! ## Application intake (`apply_metering`, `apply_solar_setup`, src/app.py)

Form data is modelled with `Option`-valued fields (`none` = key absent from
`request.form`); `uploads` is the list of document field names for which
`request.files` holds a file with a nonempty filename.  `float(None)` raises
`TypeError` in Python, which the embedding surfaces as `AppError.typeError`.
A `flash(...); redirect(...)` rejection is `AppError.validation msg` with the
flashed message, and the missing-documents rejection carries the list of
human-readable missing document names. -/

/-- Python truthiness of a form value: `None` and `""` are falsy. -/
def pyTruthyOptStr : Option String → Bool
  | none => false
  | some s => s != ""

/-- Python `str.strip()`: drop whitespace from both ends. -/
def pyStrip (s : String) : String :=
  String.mk (((s.toList.dropWhile Char.isWhitespace).reverse.dropWhile
    Char.isWhitespace).reverse)

/-- The document kinds required of every application:
`['electricity_bill', 'cnic_front', 'cnic_back']`. -/
def base_docs : List String := ["electricity_bill", "cnic_front", "cnic_back"]

/-- Split a character list at spaces (the word decomposition Python `title()`
performs on the space-separated document names). -/
def wordsAux : List Char → List Char → List (List Char)
  | [], acc => [acc.reverse]
  | c :: cs, acc => if c = ' ' then acc.reverse :: wordsAux cs [] else wordsAux cs (c :: acc)

/-- Rejoin words with single spaces. -/
def joinSpace : List (List Char) → List Char
  | [] => []
  | [w] => w
  | w :: ws => w ++ ' ' :: joinSpace ws

/-- Python `str.title()` on one word: first character uppercased, rest lowercased. -/
def capitalizeWord : List Char → List Char
  | [] => []
  | c :: cs => c.toUpper :: cs.map Char.toLower

/-- `d.replace('_', ' ').title()`: the human-readable name of a document kind
used in the missing-documents message (the pattern is a single character, so
`replace` is a character map). -/
def displayName (d : String) : String :=
  String.mk (joinSpace ((wordsAux (d.toList.map
    (fun c => if c = '_' then ' ' else c)) []).map capitalizeWord))

/-- `MeteringApplication.generate_reference` (src/app.py:101-108):
`{PREFIX}-{YYYYMMDD}-{4-digit-random}` with PREFIX keyed by type, `APP`
by default.  The date string and the random number are explicit inputs. -/
def generate_reference (application_type date : String) (rand : ℕ) : String :=
  let pfx := if application_type = "net" then "NET"
    else if application_type = "gross" then "GROSS"
    else if application_type = "simple_solar" then "SOL"
    else "APP"
  pfx ++ "-" ++ date ++ "-" ++ toString rand

/-- The persisted `MeteringApplication` row (src/app.py:82-108).  Document
paths are elided: `documents` keeps the list of stored document kinds. -/
structure MeteringApplication where
  user_id : ℕ
  application_type : String
  system_capacity : ℚ
  consumption_units : ℤ
  property_type : Option String
  property_address : String
  ownership_type : String
  reference_number : String
  status : Option String
  submitted_at : ℕ
  updated_at : ℕ
  documents : List String
  noc_message : Option String
  admin_notes : Option String
  estimated_cost : ℚ
  deriving Repr, DecidableEq

/-- Rejections of the intake routes. -/
inductive AppError where
  /-- An uncaught Python exception (HTTP 500), e.g. `float(None)`. -/
  | typeError
  /-- A `flash(msg, 'danger'); redirect(...)` rejection. -/
  | validation (msg : String)
  /-- The missing-documents rejection, carrying the human-readable names. -/
  | missingDocuments (missing : List String)
  deriving Repr, DecidableEq

/-- The POST form of `/apply-metering`. -/
structure MeteringForm where
  application_type : Option String
  system_capacity : Option ℚ
  consumption_units : Option ℤ
  property_type : Option String
  property_address : Option String
  ownership_type : Option String
  noc_message : Option String
  uploads : List String
  deriving Repr, DecidableEq

/-- `ownership_type = request.form.get('ownership_type', 'owner')`. -/
def ownership_type_of (form : MeteringForm) : String := form.ownership_type.getD "owner"

/-- `doc_fields`: the base three plus `land_ownership` for an owner or
`noc_document` for anyone else (src/app.py:438-445). -/
def doc_fields (form : MeteringForm) : List String :=
  base_docs ++ (if ownership_type_of form = "owner" then ["land_ownership"]
    else ["noc_document"])

/-- `uploaded_docs`: the document kinds of `doc_fields` for which a file with
a nonempty filename was uploaded (src/app.py:447-457). -/
def uploaded_docs (form : MeteringForm) : List String :=
  (doc_fields form).filter (fun dd => form.uploads.contains dd)

/-- `required_docs`: the base three, plus `land_ownership` when
`ownership_type == 'owner'` (src/app.py:459-462) — note: for every
application type, the owner branch always appends `land_ownership`. -/
def required_docs (form : MeteringForm) : List String :=
  base_docs ++ (if ownership_type_of form = "owner" then ["land_ownership"] else [])

/-- `missing = [d.replace('_', ' ').title() for d in required_docs if d not in uploaded_docs]`. -/
def missing_docs (form : MeteringForm) : List String :=
  ((required_docs form).filter
    (fun dd => !((uploaded_docs form).contains dd))).map displayName

/-- The document-validation and record-creation stage of `apply_metering`
(src/app.py:437-487, the code after the three field validations), given the
already-parsed `system_capacity`. -/
def applyMeteringDocs (userId : ℕ) (form : MeteringForm) (now : ℕ) (date : String)
    (rand : ℕ) (system_capacity : ℚ) : Except AppError MeteringApplication :=
  if ownership_type_of form = "tenant" ∧ "noc_document" ∉ uploaded_docs form
      ∧ pyStrip (form.noc_message.getD "") = "" then
    .error (.validation
      "Tenants must provide either a NOC document (stamp paper) or a NOC message")
  else if missing_docs form ≠ [] then
    .error (.missingDocuments (missing_docs form))
  else
    .ok { user_id := userId
          application_type := form.application_type.getD ""
          system_capacity := system_capacity
          consumption_units := form.consumption_units.getD 0
          property_type := form.property_type
          property_address := form.property_address.getD ""
          ownership_type := ownership_type_of form
          reference_number := generate_reference (form.application_type.getD "") date rand
          status := some "pending"
          submitted_at := now
          updated_at := now
          documents := uploaded_docs form
          noc_message := if ownership_type_of form = "tenant" then
            some (form.noc_message.getD "") else none
          admin_notes := none
          estimated_cost := system_capacity * 80000 }

/-- The POST branch of `apply_metering` (src/app.py:406-512).
`float(request.form.get('system_capacity'))` runs before any validation, so
an absent capacity raises `TypeError`; then the three validations run in
source order, then the document stage. -/
def applyMetering (userId : ℕ) (form : MeteringForm) (now : ℕ) (date : String)
    (rand : ℕ) : Except AppError MeteringApplication :=
  match form.system_capacity with
  | none => .error .typeError
  | some system_capacity =>
    if !(pyTruthyOptStr form.application_type && decide (system_capacity ≠ 0)
          && pyTruthyOptStr form.property_address) then
      .error (.validation "All required fields must be filled")
    else if system_capacity < 1 ∨ system_capacity > 50 then
      .error (.validation "System capacity must be between 1kW and 50kW")
    else if form.application_type = some "net" ∧ system_capacity < 5 then
      .error (.validation "Net metering requires system capacity of 5kW or greater")
    else applyMeteringDocs userId form now date rand system_capacity

/-- The POST form of `/apply-solar-setup`. -/
structure SolarSetupForm where
  system_capacity : Option ℚ
  property_address : Option String
  property_type : Option String
  consumption_units : Option ℤ
  uploads : List String
  deriving Repr, DecidableEq

/-- `uploaded_docs` of `apply_solar_setup`: only the three base document
kinds are ever considered (src/app.py:549-560). -/
def solar_uploaded_docs (form : SolarSetupForm) : List String :=
  base_docs.filter (fun dd => form.uploads.contains dd)

/-- `missing` of `apply_solar_setup` (src/app.py:563). -/
def solar_missing_docs (form : SolarSetupForm) : List String :=
  (base_docs.filter
    (fun dd => !((solar_uploaded_docs form).contains dd))).map displayName

/-- The POST branch of `apply_solar_setup` (src/app.py:535-572): the dedicated
simple-solar intake.  `system_capacity` defaults to `0` (`form.get(..., 0)`),
the application is stored with type `simple_solar` and ownership `owner`, and
only the three base documents are ever considered — the route has no
ownership or NOC input at all. -/
def applySolarSetup (userId : ℕ) (form : SolarSetupForm) (now : ℕ) (date : String)
    (rand : ℕ) : Except AppError MeteringApplication :=
  if !(decide (form.system_capacity.getD 0 ≠ 0)
        && decide (form.property_address.getD "" ≠ "")) then
    .error (.validation "All required fields must be filled")
  else if form.system_capacity.getD 0 < 1 ∨ form.system_capacity.getD 0 > 50 then
    .error (.validation "System capacity must be between 1kW and 50kW")
  else if solar_missing_docs form ≠ [] then
    .error (.missingDocuments (solar_missing_docs form))
  else
    .ok { user_id := userId
          application_type := "simple_solar"
          system_capacity := form.system_capacity.getD 0
          consumption_units := form.consumption_units.getD 0
          property_type := some (form.property_type.getD "residential")
          property_address := form.property_address.getD ""
          ownership_type := "owner"
          reference_number := generate_reference "simple_solar" date rand
          status := some "pending"
          submitted_at := now
          updated_at := now
          documents := solar_uploaded_docs form
          noc_message := none
          admin_notes := none
          estimated_cost := form.system_capacity.getD 0 * 80000 }

/-- The JSON projection returned by `/api/application-status/<ref_number>`
(src/app.py:1179-1194).  The two dates are kept as raw timestamps. -/
structure StatusProjection where
  reference_number : String
  type : String
  capacity : ℚ
  status : Option String
  submitted_at : ℕ
  updated_at : ℕ
  deriving Repr, DecidableEq

/-- `api_application_status`: look up the first stored application whose
`reference_number` matches, returning its projection, or `none` (the 404
branch) when there is no match. -/
def api_application_status (store : List MeteringApplication) (ref : String) :
    Option StatusProjection :=
  match store.find? (fun a => a.reference_number == ref) with
  | none => none
  | some a => some { reference_number := a.reference_number
                     type := a.application_type
                     capacity := a.system_capacity
                     status := a.status
                     submitted_at := a.submitted_at
                     updated_at := a.updated_at }

/-- The POST branch of `admin_application_detail` (src/app.py:975-988):
overwrite `status` and `admin_notes` with the submitted form values and set
`updated_at = datetime.utcnow()`. -/
def admin_update_application (a : MeteringApplication)
    (status admin_notes : Option String) (now : ℕ) : MeteringApplication :=
  { a with status := status, admin_notes := admin_notes, updated_at := now }

/-- The C1 sizing-policy statement: the ladder choice is the least standard
capacity ≥ `required_capacity`, capped at 50; the roof override replaces it
with `max(1, floor(roof_area / 100))` exactly when `ladder × 100 > roof_area`;
and the final capacity is an integer ≥ 1. -/
def SizingPolicy (b r : ℚ) (p : String) : Prop :=
  ladder_capacity b ∈ standard_capacities
  ∧ (required_capacity b ≤ 50 →
      required_capacity b ≤ ladder_capacity b
      ∧ ∀ c ∈ standard_capacities, required_capacity b ≤ c → ladder_capacity b ≤ c)
  ∧ (50 < required_capacity b → ladder_capacity b = 50)
  ∧ (ladder_capacity b * 100 > r →
      (get_solar_recommendation b r p).recommended_capacity =
        ((max 1 ⌊r / 100⌋ : ℤ) : ℚ))
  ∧ (¬ ladder_capacity b * 100 > r →
      (get_solar_recommendation b r p).recommended_capacity = ladder_capacity b)
  ∧ (∃ n : ℤ, (get_solar_recommendation b r p).recommended_capacity = (n : ℚ) ∧ 1 ≤ n)

/-- The (amended) C3 document policy of the metering-intake route, for a form
that passes the three field validations: `land_ownership` is required in
addition to the base three whenever `ownership_type` resolves to `owner`,
regardless of `application_type`; a tenant must supply an uploaded
`noc_document` or a nonempty (after strip) `noc_message`, and otherwise needs
exactly the base three; every failure for a missing document lists its
human-readable name. -/
def DocumentPolicy (u : ℕ) (form : MeteringForm) (now : ℕ) (d : String) (rn : ℕ) : Prop :=
  required_docs form = base_docs
    ++ (if ownership_type_of form = "owner" then ["land_ownership"] else [])
  ∧ (ownership_type_of form = "owner" →
      ∀ dd ∈ required_docs form, dd ∉ form.uploads →
        ∃ missing, applyMetering u form now d rn = .error (.missingDocuments missing)
          ∧ displayName dd ∈ missing)
  ∧ (ownership_type_of form = "owner" →
      (∀ dd ∈ required_docs form, dd ∈ form.uploads) →
      ∃ a, applyMetering u form now d rn = .ok a)
  ∧ (ownership_type_of form = "tenant" → "noc_document" ∉ form.uploads →
      pyStrip (form.noc_message.getD "") = "" →
      applyMetering u form now d rn = .error (.validation
        "Tenants must provide either a NOC document (stamp paper) or a NOC message"))
  ∧ (ownership_type_of form = "tenant" →
      ("noc_document" ∈ form.uploads ∨ pyStrip (form.noc_message.getD "") ≠ "") →
      (∀ dd ∈ base_docs, dd ∈ form.uploads) →
      ∃ a, applyMetering u form now d rn = .ok a)
  ∧ (ownership_type_of form = "tenant" →
      ("noc_document" ∈ form.uploads ∨ pyStrip (form.noc_message.getD "") ≠ "") →
      ∀ dd ∈ base_docs, dd ∉ form.uploads →
        ∃ missing, applyMetering u form now d rn = .error (.missingDocuments missing)
          ∧ displayName dd ∈ missing)

/-- The C3 document policy of the dedicated simple-solar route, for a form
that passes its two field validations: exactly the base three documents are
required — the route has no ownership or NOC input, so a simple-solar
application through it never requires `land_ownership` or NOC. -/
def SolarDocumentPolicy (u : ℕ) (sform : SolarSetupForm) (now : ℕ) (d : String)
    (rn : ℕ) : Prop :=
  ((∀ dd ∈ base_docs, dd ∈ sform.uploads) →
      ∃ a, applySolarSetup u sform now d rn = .ok a
        ∧ a.application_type = "simple_solar")
  ∧ (∀ dd ∈ base_docs, dd ∉ sform.uploads →
      ∃ missing, applySolarSetup u sform now d rn = .error (.missingDocuments missing)
        ∧ displayName dd ∈ missing)

/-- A concrete valid create request (used to witness the round-trip claim). -/
def exampleMeteringForm : MeteringForm :=
  { application_type := some "net", system_capacity := some 5,
    consumption_units := some 300, property_type := some "residential",
    property_address := some "123 Street", ownership_type := some "owner",
    noc_message := none,
    uploads := ["electricity_bill", "cnic_front", "cnic_back", "land_ownership"] }

/-- The application record `exampleMeteringForm` creates. -/
def exampleMeteringApp : MeteringApplication :=
  { user_id := 7, application_type := "net", system_capacity := 5,
    consumption_units := 300, property_type := some "residential",
    property_address := "123 Street", ownership_type := "owner",
    reference_number := "NET-20251012-1234", status := some "pending",
    submitted_at := 11, updated_at := 11,
    documents := ["electricity_bill", "cnic_front", "cnic_back", "land_ownership"],
    noc_message := none, admin_notes := none, estimated_cost := 400000 }

/-! ## Generic facts about the embedded primitives -/

theorem foldl_min_le_init (l : List ℚ) (a : ℚ) : l.foldl min a ≤ a := by
  induction l generalizing a with
  | nil => simp
  | cons x xs ih => simpa using le_trans (ih (min a x)) (min_le_left a x)

theorem foldl_min_le_mem (l : List ℚ) (a : ℚ) : ∀ x ∈ l, l.foldl min a ≤ x := by
  induction l generalizing a with
  | nil => simp
  | cons y ys ih =>
    intro x hx
    rcases List.mem_cons.mp hx with rfl | hx
    · simpa using le_trans (foldl_min_le_init ys (min a x)) (min_le_right a x)
    · simpa using ih (min a y) x hx

theorem foldl_min_mem (l : List ℚ) (a : ℚ) : l.foldl min a = a ∨ l.foldl min a ∈ l := by
  induction l generalizing a with
  | nil => simp
  | cons y ys ih =>
    rcases ih (min a y) with h | h
    · rcases min_cases a y with ⟨hm, _⟩ | ⟨hm, _⟩
      · left; simpa [hm] using h
      · right; simp only [List.foldl_cons]; rw [h, hm]; exact List.mem_cons_self y ys
    · right; exact List.mem_cons_of_mem y (by simpa using h)

theorem pyMinD_mem (l : List ℚ) (d : ℚ) (h : l ≠ []) : pyMinD l d ∈ l := by
  match l with
  | [] => exact absurd rfl h
  | x :: xs =>
    rcases foldl_min_mem xs x with h' | h'
    · simp [pyMinD, h']
    · simp only [pyMinD]
      exact List.mem_cons_of_mem x h'

theorem pyMinD_le (l : List ℚ) (d : ℚ) : ∀ x ∈ l, pyMinD l d ≤ x := by
  match l with
  | [] => simp
  | x :: xs =>
    intro y hy
    rcases List.mem_cons.mp hy with rfl | hy
    · exact foldl_min_le_init xs y
    · exact foldl_min_le_mem xs x y hy

/-! ## Facts about the capacity ladder and the recommended capacity -/

theorem mem_standard_capacities_int (c : ℚ) (hc : c ∈ standard_capacities) :
    ∃ n : ℤ, c = (n : ℚ) ∧ 1 ≤ n ∧ n ≤ 50 := by
  fin_cases hc
  · exact ⟨1, by norm_num⟩
  · exact ⟨2, by norm_num⟩
  · exact ⟨3, by norm_num⟩
  · exact ⟨5, by norm_num⟩
  · exact ⟨7, by norm_num⟩
  · exact ⟨10, by norm_num⟩
  · exact ⟨15, by norm_num⟩
  · exact ⟨20, by norm_num⟩
  · exact ⟨25, by norm_num⟩
  · exact ⟨30, by norm_num⟩
  · exact ⟨40, by norm_num⟩
  · exact ⟨50, by norm_num⟩

theorem mem_standard_capacities_le_50 (c : ℚ) (hc : c ∈ standard_capacities) : c ≤ 50 := by
  obtain ⟨n, rfl, _, h⟩ := mem_standard_capacities_int c hc
  exact_mod_cast h

theorem mem_standard_capacities_ge_1 (c : ℚ) (hc : c ∈ standard_capacities) : 1 ≤ c := by
  obtain ⟨n, rfl, h, _⟩ := mem_standard_capacities_int c hc
  exact_mod_cast h

theorem ladder_filter_eq_nil (b : ℚ) (h : 50 < required_capacity b) :
    standard_capacities.filter (fun c => decide (required_capacity b ≤ c)) = [] := by
  rw [List.filter_eq_nil_iff]
  intro c hc
  simp only [decide_eq_true_eq]
  intro hle
  exact absurd (le_trans hle (mem_standard_capacities_le_50 c hc)) (not_le.mpr h)

theorem ladder_filter_ne_nil (b : ℚ) (h : required_capacity b ≤ 50) :
    standard_capacities.filter (fun c => decide (required_capacity b ≤ c)) ≠ [] := by
  have h50 : (50 : ℚ) ∈ standard_capacities.filter
      (fun c => decide (required_capacity b ≤ c)) := by
    rw [List.mem_filter]
    exact ⟨by norm_num [standard_capacities], by simpa using h⟩
  exact List.ne_nil_of_mem h50

theorem ladder_capacity_of_gt (b : ℚ) (h : 50 < required_capacity b) :
    ladder_capacity b = 50 := by
  rw [ladder_capacity, ladder_filter_eq_nil b h]
  rfl

theorem ladder_capacity_mem (b : ℚ) : ladder_capacity b ∈ standard_capacities := by
  rcases le_or_lt (required_capacity b) 50 with h | h
  · have := pyMinD_mem _ 50 (ladder_filter_ne_nil b h)
    rw [← ladder_capacity] at this
    exact (List.mem_filter.mp this).1
  · rw [ladder_capacity_of_gt b h]
    norm_num [standard_capacities]

theorem required_le_ladder_capacity (b : ℚ) (h : required_capacity b ≤ 50) :
    required_capacity b ≤ ladder_capacity b := by
  have := pyMinD_mem _ 50 (ladder_filter_ne_nil b h)
  rw [← ladder_capacity] at this
  have := (List.mem_filter.mp this).2
  simpa using this

theorem ladder_capacity_min (b c : ℚ) (hc : c ∈ standard_capacities)
    (hrc : required_capacity b ≤ c) : ladder_capacity b ≤ c := by
  refine pyMinD_le _ 50 c ?_
  rw [List.mem_filter]
  exact ⟨hc, by simpa using hrc⟩

theorem ladder_capacity_int (b : ℚ) :
    ∃ n : ℤ, ladder_capacity b = (n : ℚ) ∧ 1 ≤ n ∧ n ≤ 50 :=
  mem_standard_capacities_int _ (ladder_capacity_mem b)

/-- The final recommended capacity is always an integer ≥ 1, for every input. -/
theorem recommended_capacity_int (b r : ℚ) :
    ∃ n : ℤ, recommended_capacity_val b r = (n : ℚ) ∧ 1 ≤ n := by
  rw [recommended_capacity_val]
  split
  · exact ⟨max 1 (pyInt (r / 100)), rfl, le_max_left _ _⟩
  · obtain ⟨n, hn, h1, _⟩ := ladder_capacity_int b
    exact ⟨n, hn, h1⟩

theorem recommended_capacity_pos (b r : ℚ) : 0 < recommended_capacity_val b r := by
  obtain ⟨n, hn, h1⟩ := recommended_capacity_int b r
  rw [hn]
  exact_mod_cast lt_of_lt_of_le Int.zero_lt_one h1

theorem annual_savings_eq (b r : ℚ) :
    annual_savings_val b r = 39600 * recommended_capacity_val b r := by
  rw [annual_savings_val, monthly_savings_val, monthly_generation_val,
    peak_sun_hours, system_loss_factor, electricity_rate]
  ring_nf

theorem payback_years_eq (b r : ℚ) : payback_years b r = 200 / 99 := by
  have hpos : 0 < annual_savings_val b r := by
    rw [annual_savings_eq]
    exact mul_pos (by norm_num) (recommended_capacity_pos b r)
  rw [payback_years, if_pos hpos, total_cost, cost_per_kw, annual_savings_eq]
  have hne : recommended_capacity_val b r ≠ 0 := ne_of_gt (recommended_capacity_pos b r)
  field_simp
  ring

theorem pyRoundInt_intCast (m : ℤ) : pyRoundInt (m : ℚ) = m := by
  norm_num [pyRoundInt]

theorem pyRound_intCast (m : ℤ) (n : ℕ) : pyRound (m : ℚ) n = m := by
  rw [pyRound]
  have h : ((m : ℚ) * 10 ^ n) = ((m * 10 ^ n : ℤ) : ℚ) := by push_cast; ring
  rw [h, pyRoundInt_intCast]
  push_cast
  rw [mul_div_assoc, div_self (by positivity), mul_one]

theorem pyInt_lt (q : ℚ) (n : ℤ) (hn : 0 < n) (h : q < (n : ℚ)) : pyInt q < n := by
  rw [pyInt]
  split
  · exact Int.floor_lt.mpr h
  · next hq =>
    exact lt_of_le_of_lt (Int.ceil_le.mpr (le_of_lt (by exact_mod_cast not_le.mp hq))) hn

/-! Field projections of the estimator's returned record. -/

theorem rec_capacity_eq (b r : ℚ) (p : String) :
    (get_solar_recommendation b r p).recommended_capacity = recommended_capacity_val b r := rfl

theorem rec_cost_eq (b r : ℚ) (p : String) :
    (get_solar_recommendation b r p).estimated_cost = total_cost b r := rfl

theorem rec_annual_eq (b r : ℚ) (p : String) :
    (get_solar_recommendation b r p).annual_savings = pyRound (annual_savings_val b r) 2 := rfl

theorem rec_monthly_savings_eq (b r : ℚ) (p : String) :
    (get_solar_recommendation b r p).monthly_savings =
      pyRound (monthly_savings_val b r) 2 := rfl

theorem rec_payback_eq (b r : ℚ) (p : String) :
    (get_solar_recommendation b r p).payback_period = pyRound (payback_years b r) 1 := rfl

theorem rec_eligible_eq (b r : ℚ) (p : String) :
    (get_solar_recommendation b r p).net_metering_eligible =
      decide (recommended_capacity_val b r ≥ 5) := rfl

theorem rec_area_eq (b r : ℚ) (p : String) :
    (get_solar_recommendation b r p).required_area = ladder_capacity b * 100 := rfl

theorem monthly_savings_eq (b r : ℚ) :
    monthly_savings_val b r = 3300 * recommended_capacity_val b r := by
  rw [monthly_savings_val, monthly_generation_val, peak_sun_hours, system_loss_factor,
    electricity_rate]
  ring

/-- The rounded `annual_savings` output coincides with the exact value:
the capacity is an integer, so `annual_savings` is the integer `39600 * n`. -/
theorem rec_annual_exact (b r : ℚ) (p : String) :
    (get_solar_recommendation b r p).annual_savings = annual_savings_val b r := by
  obtain ⟨n, hn, _⟩ := recommended_capacity_int b r
  rw [rec_annual_eq, annual_savings_eq, hn]
  have h : (39600 : ℚ) * (n : ℚ) = ((39600 * n : ℤ) : ℚ) := by push_cast; ring
  rw [h, pyRound_intCast]

theorem rec_annual_pos (b r : ℚ) (p : String) :
    0 < (get_solar_recommendation b r p).annual_savings := by
  rw [rec_annual_exact, annual_savings_eq]
  exact mul_pos (by norm_num) (recommended_capacity_pos b r)

/-- Shared evaluation: the rounded payback is the constant `2`. -/
theorem payback_round_two (b r : ℚ) (p : String) :
    (get_solar_recommendation b r p).payback_period = 2 := by
  rw [rec_payback_eq, payback_years_eq]
  norm_num [pyRound, pyRoundInt]

/-! ## Claim theorems -/

/-- C9: for every input, the estimator's `payback_period` output equals the
constant `2.0`: `total_cost = capacity * 80000` and
`annual_savings = capacity * 39600` are both proportional to the recommended
capacity, which is always ≥ 1, and `80000 / 39600 = 200/99 ≈ 2.02` rounds to
`2.0` at one decimal place; the output is independent of `monthly_bill`,
`roof_area` and `property_type`. -/
theorem payback_period_constant (b r : ℚ) (p : String) :
    (get_solar_recommendation b r p).payback_period = 2 ∧
    total_cost b r = recommended_capacity_val b r * 80000 ∧
    annual_savings_val b r = 39600 * recommended_capacity_val b r := by
  exact ⟨payback_round_two b r p, by rw [total_cost, cost_per_kw], annual_savings_eq b r⟩

/-- C5: for every input, `net_metering_eligible` is `true` iff the final
`recommended_capacity` is ≥ 5; a capacity of exactly 5 (e.g. bill 16500,
roof 500) gives `true`, and a roof-override result of 4
(bill 100000, roof 450, `floor(450/100) = 4`) gives `false`. -/
theorem net_metering_eligible_iff :
    (∀ b r : ℚ, ∀ p : String,
      ((get_solar_recommendation b r p).net_metering_eligible = true ↔
        (get_solar_recommendation b r p).recommended_capacity ≥ 5))
    ∧ (get_solar_recommendation 16500 500 "residential").recommended_capacity = 5
    ∧ (get_solar_recommendation 16500 500 "residential").net_metering_eligible = true
    ∧ (get_solar_recommendation 100000 450 "residential").recommended_capacity = 4
    ∧ (get_solar_recommendation 100000 450 "residential").net_metering_eligible = false := by
  refine ⟨fun b r p => ?_, ?_, ?_, ?_, ?_⟩
  · rw [rec_eligible_eq, rec_capacity_eq]
    exact decide_eq_true_iff
  all_goals
    norm_num [get_solar_recommendation, recommended_capacity_val, required_area_val,
      ladder_capacity, required_capacity, daily_units, monthly_units, electricity_rate,
      peak_sun_hours, system_loss_factor, standard_capacities, List.filter, pyMinD,
      List.foldl, min_def, pyInt]

/-- C6: for every input, `payback_period` equals
`round(total_cost / annual_savings, 1)` whenever `annual_savings > 0` (which
in fact always holds), and `payback_period = 0` exactly when
`annual_savings = 0`; the division is guarded by the
`if annual_savings > 0 else 0` branch, so no division error can occur. -/
theorem payback_period_guarded (b r : ℚ) (p : String) :
    0 < (get_solar_recommendation b r p).annual_savings
    ∧ (get_solar_recommendation b r p).payback_period =
        pyRound ((get_solar_recommendation b r p).estimated_cost /
          (get_solar_recommendation b r p).annual_savings) 1
    ∧ ((get_solar_recommendation b r p).payback_period = 0 ↔
        (get_solar_recommendation b r p).annual_savings = 0) := by
  have hpos := rec_annual_pos b r p
  refine ⟨hpos, ?_, ?_⟩
  · rw [rec_payback_eq, rec_cost_eq, rec_annual_exact, payback_years,
      if_pos (by rw [rec_annual_exact] at hpos; exact hpos)]
  · rw [payback_round_two b r p]
    constructor
    · intro h; norm_num at h
    · intro h; rw [h] at hpos; norm_num at hpos

/-- C4 counterexample: at `monthly_bill = 0` and `roof_area = 0` the estimator
does not produce a degenerate zero output — the recommended capacity is
clamped to 1 and the savings are the fixed per-kW amounts, refuting
"zero recommended capacity and zero savings". -/
theorem estimator_degenerate_counterexample :
    (get_solar_recommendation 0 0 "residential").recommended_capacity = 1
    ∧ (get_solar_recommendation 0 0 "residential").annual_savings = 39600
    ∧ (get_solar_recommendation 0 0 "residential").recommended_capacity ≠ 0
    ∧ (get_solar_recommendation 0 0 "residential").annual_savings ≠ 0 := by
  norm_num [get_solar_recommendation, recommended_capacity_val, required_area_val,
    ladder_capacity, required_capacity, daily_units, monthly_units, electricity_rate,
    peak_sun_hours, system_loss_factor, standard_capacities, List.filter, pyMinD,
    List.foldl, min_def, pyInt, annual_savings_val, monthly_savings_val,
    monthly_generation_val, pyRound, pyRoundInt]

/-- C4 amended: for `monthly_bill = 0` or `roof_area = 0` the estimator does
not error, but its outputs are not degenerate zeros: the recommended capacity
is clamped to 1 and the savings are the fixed per-kW amounts
(`monthly_savings = 3300`, `annual_savings = 39600`). -/
theorem estimator_degenerate_inputs (b r : ℚ) (p : String) (h : b = 0 ∨ r = 0) :
    (get_solar_recommendation b r p).recommended_capacity = 1
    ∧ (get_solar_recommendation b r p).monthly_savings = 3300
    ∧ (get_solar_recommendation b r p).annual_savings = 39600 := by
  have hcap : recommended_capacity_val b r = 1 := by
    rcases h with rfl | rfl
    · have hl : ladder_capacity 0 = 1 := by
        norm_num [ladder_capacity, required_capacity, daily_units, monthly_units,
          electricity_rate, peak_sun_hours, system_loss_factor, standard_capacities,
          List.filter, pyMinD, List.foldl, min_def]
      rw [recommended_capacity_val, required_area_val, hl]
      rcases lt_or_ge r 100 with hr | hr
      · rw [if_pos (by linarith)]
        have hk : pyInt (r / 100) < 1 := pyInt_lt (r / 100) 1 one_pos
          (by push_cast; rw [div_lt_one (by norm_num : (0:ℚ) < 100)]; exact hr)
        rw [max_eq_left (by omega)]
        norm_num
      · rw [if_neg (by push_neg; linarith)]
    · obtain ⟨n, hn, h1n, _⟩ := ladder_capacity_int b
      have h1q : (1 : ℚ) ≤ ladder_capacity b := by rw [hn]; exact_mod_cast h1n
      rw [recommended_capacity_val, required_area_val, if_pos (by linarith)]
      norm_num [pyInt]
  refine ⟨by rw [rec_capacity_eq, hcap], ?_, ?_⟩
  · rw [rec_monthly_savings_eq, monthly_savings_eq, hcap]
    have h3 : (3300 : ℚ) * 1 = ((3300 : ℤ) : ℚ) := by norm_num
    rw [h3, pyRound_intCast]
    norm_num
  · rw [rec_annual_eq, annual_savings_eq, hcap]
    have h3 : (39600 : ℚ) * 1 = ((39600 : ℤ) : ℚ) := by norm_num
    rw [h3, pyRound_intCast]
    norm_num

/-- Witness for the C4 amended theorem at `monthly_bill = 0`, `roof_area = 0`. -/
theorem estimator_degenerate_inputs_witness :
    ((0 : ℚ) = 0 ∨ (0 : ℚ) = 0)
    ∧ ((get_solar_recommendation 0 0 "residential").recommended_capacity = 1
        ∧ (get_solar_recommendation 0 0 "residential").monthly_savings = 3300
        ∧ (get_solar_recommendation 0 0 "residential").annual_savings = 39600) :=
  ⟨Or.inl rfl, estimator_degenerate_inputs 0 0 "residential" (Or.inl rfl)⟩

/-- C10 counterexample: at `monthly_bill = 25`, `roof_area = 50` the roof
override fires (`required_area = 100 > 50`) yet the returned `required_area`
still equals the returned `recommended_capacity × 100` (both capacities are
1), refuting the claimed inequality. -/
theorem required_area_override_counterexample :
    (get_solar_recommendation 25 50 "residential").required_area = 100
    ∧ (get_solar_recommendation 25 50 "residential").required_area > 50
    ∧ (get_solar_recommendation 25 50 "residential").recommended_capacity = 1
    ∧ (get_solar_recommendation 25 50 "residential").required_area =
        (get_solar_recommendation 25 50 "residential").recommended_capacity * 100 := by
  norm_num [get_solar_recommendation, recommended_capacity_val, required_area_val,
    ladder_capacity, required_capacity, daily_units, monthly_units, electricity_rate,
    peak_sun_hours, system_loss_factor, standard_capacities, List.filter, pyMinD,
    List.foldl, min_def, pyInt]

/-- C10 amended: `required_area` is computed from the pre-override ladder
capacity (`ladder × 100`) and never recomputed; whenever the override fires
(`ladder × 100 > roof_area`) the returned `required_area` exceeds the roof
area, and it differs from the returned `recommended_capacity × 100` whenever
the ladder capacity exceeds 1; when the ladder capacity is 1 the override
leaves the capacity at 1 (so the two coincide, as in the counterexample). -/
theorem required_area_pre_override (b r : ℚ) (p : String)
    (hov : ladder_capacity b * 100 > r) :
    (get_solar_recommendation b r p).required_area = ladder_capacity b * 100
    ∧ (get_solar_recommendation b r p).required_area > r
    ∧ (1 < ladder_capacity b →
        (get_solar_recommendation b r p).required_area ≠
          (get_solar_recommendation b r p).recommended_capacity * 100)
    ∧ (ladder_capacity b = 1 →
        (get_solar_recommendation b r p).recommended_capacity = 1) := by
  obtain ⟨nL, hnL, h1L, _⟩ := ladder_capacity_int b
  have hcap : (get_solar_recommendation b r p).recommended_capacity =
      ((max 1 (pyInt (r / 100)) : ℤ) : ℚ) := by
    rw [rec_capacity_eq, recommended_capacity_val, if_pos (by rwa [required_area_val])]
  refine ⟨rec_area_eq b r p, by rw [rec_area_eq]; exact hov, ?_, ?_⟩
  · intro h1
    have h1n : 1 < nL := by rw [hnL] at h1; exact_mod_cast h1
    have hklt : pyInt (r / 100) < nL := by
      refine pyInt_lt (r / 100) nL (by omega) ?_
      rw [div_lt_iff₀ (by norm_num : (0:ℚ) < 100)]
      calc r < ladder_capacity b * 100 := hov
        _ = (nL : ℚ) * 100 := by rw [hnL]
    have hmax : max 1 (pyInt (r / 100)) < nL := by omega
    rw [rec_area_eq, hcap, hnL]
    intro hcontra
    have hq : ((max 1 (pyInt (r / 100)) : ℤ) : ℚ) = (nL : ℚ) := by linarith
    have : max 1 (pyInt (r / 100)) = nL := by exact_mod_cast hq
    omega
  · intro h1
    have hr100 : r < 100 := by rw [h1] at hov; linarith
    have hk : pyInt (r / 100) < 1 := pyInt_lt (r / 100) 1 one_pos
      (by push_cast; rw [div_lt_one (by norm_num : (0:ℚ) < 100)]; exact hr100)
    rw [hcap, max_eq_left (by omega)]
    norm_num

/-- Witness for the C10 amended theorem at `monthly_bill = 100000`,
`roof_area = 250` (ladder capacity 40, override to 2). -/
theorem required_area_pre_override_witness :
    ladder_capacity 100000 * 100 > 250
    ∧ ((get_solar_recommendation 100000 250 "residential").required_area =
          ladder_capacity 100000 * 100
        ∧ (get_solar_recommendation 100000 250 "residential").required_area > 250
        ∧ (1 < ladder_capacity 100000 →
            (get_solar_recommendation 100000 250 "residential").required_area ≠
              (get_solar_recommendation 100000 250 "residential").recommended_capacity * 100)
        ∧ (ladder_capacity 100000 = 1 →
            (get_solar_recommendation 100000 250 "residential").recommended_capacity = 1)) := by
  have hov : ladder_capacity 100000 * 100 > 250 := by
    norm_num [ladder_capacity, required_capacity, daily_units, monthly_units,
      electricity_rate, peak_sun_hours, system_loss_factor, standard_capacities,
      List.filter, pyMinD, List.foldl, min_def]
  exact ⟨hov, required_area_pre_override 100000 250 "residential" hov⟩

/-- C1: for positive inputs the ladder choice is the least standard capacity
≥ `required_capacity` (50 when `required_capacity` exceeds 50); whenever the
ladder choice × 100 exceeds the roof area the result is overridden to
`max(1, floor(roof_area / 100))`, otherwise it is the ladder choice; and the
final recommended capacity is always an integer ≥ 1. -/
theorem estimator_sizing_policy (b r : ℚ) (p : String) (hb : 0 < b) (hr : 0 < r) :
    SizingPolicy b r p := by
  refine ⟨ladder_capacity_mem b,
    fun h => ⟨required_le_ladder_capacity b h, fun c hc hrc => ladder_capacity_min b c hc hrc⟩,
    ladder_capacity_of_gt b, ?_, ?_, ?_⟩
  · intro hov
    rw [rec_capacity_eq, recommended_capacity_val, if_pos (by rwa [required_area_val]),
      pyInt, if_pos (le_of_lt (div_pos hr (by norm_num)))]
  · intro hov
    rw [rec_capacity_eq, recommended_capacity_val, if_neg (by rwa [required_area_val])]
  · obtain ⟨n, hn, h1⟩ := recommended_capacity_int b r
    exact ⟨n, by rw [rec_capacity_eq, hn], h1⟩

/-- Witness for C1 at `monthly_bill = 100000`, `roof_area = 250`, including
the claim's example output `recommended_capacity = 2`. -/
theorem estimator_sizing_policy_witness :
    (0 : ℚ) < 100000 ∧ (0 : ℚ) < 250
    ∧ SizingPolicy 100000 250 "residential"
    ∧ (get_solar_recommendation 100000 250 "residential").recommended_capacity = 2 :=
  ⟨by norm_num, by norm_num,
    estimator_sizing_policy 100000 250 "residential" (by norm_num) (by norm_num),
    by
      norm_num [get_solar_recommendation, recommended_capacity_val, required_area_val,
        ladder_capacity, required_capacity, daily_units, monthly_units, electricity_rate,
        peak_sun_hours, system_loss_factor, standard_capacities, List.filter, pyMinD,
        List.foldl, min_def, pyInt]⟩

/-- C8: the admin update overwrites exactly `status` and `admin_notes` and
refreshes `updated_at`; it is idempotent: applying the same
`(status, admin_notes)` pair twice yields the same stored state as applying
it once — every field other than the `updated_at` timestamp, including
`application_type`, `system_capacity`, `reference_number`, `documents` and
`submitted_at`, is unchanged by the update and identical after one and after
two applications. -/
theorem admin_update_idempotent (a : MeteringApplication) (s n : Option String)
    (t1 t2 : ℕ) :
    (admin_update_application a s n t1).status = s
    ∧ (admin_update_application a s n t1).admin_notes = n
    ∧ (admin_update_application a s n t1).updated_at = t1
    ∧ (admin_update_application a s n t1).user_id = a.user_id
    ∧ (admin_update_application a s n t1).application_type = a.application_type
    ∧ (admin_update_application a s n t1).system_capacity = a.system_capacity
    ∧ (admin_update_application a s n t1).consumption_units = a.consumption_units
    ∧ (admin_update_application a s n t1).property_type = a.property_type
    ∧ (admin_update_application a s n t1).property_address = a.property_address
    ∧ (admin_update_application a s n t1).ownership_type = a.ownership_type
    ∧ (admin_update_application a s n t1).reference_number = a.reference_number
    ∧ (admin_update_application a s n t1).submitted_at = a.submitted_at
    ∧ (admin_update_application a s n t1).documents = a.documents
    ∧ (admin_update_application a s n t1).noc_message = a.noc_message
    ∧ (admin_update_application a s n t1).estimated_cost = a.estimated_cost
    ∧ admin_update_application (admin_update_application a s n t1) s n t2 =
        admin_update_application a s n t2 :=
  ⟨rfl, rfl, rfl, rfl, rfl, rfl, rfl, rfl, rfl, rfl, rfl, rfl, rfl, rfl, rfl, rfl⟩

/-- C2 (code behaviour at the failing input): a create request whose
`system_capacity` form field is absent, with every other field valid, crashes
with `TypeError` (`float(None)` runs before the missing-field validation)
instead of being rejected with the missing-field `ValidationError`. -/
theorem applyMetering_absent_capacity_crashes :
    applyMetering 1
      { application_type := some "net", system_capacity := none,
        consumption_units := some 300, property_type := some "residential",
        property_address := some "123 Street", ownership_type := some "owner",
        noc_message := none,
        uploads := ["electricity_bill", "cnic_front", "cnic_back", "land_ownership"] }
      0 "20251012" 1234 = .error .typeError
    ∧ ∀ msg, applyMetering 1
      { application_type := some "net", system_capacity := none,
        consumption_units := some 300, property_type := some "residential",
        property_address := some "123 Street", ownership_type := some "owner",
        noc_message := none,
        uploads := ["electricity_bill", "cnic_front", "cnic_back", "land_ownership"] }
      0 "20251012" 1234 ≠ .error (.validation msg) := by
  refine ⟨rfl, fun msg => ?_⟩
  simp [applyMetering]

theorem find?_ref_none (store : List MeteringApplication) (ref : String)
    (h : ∀ x ∈ store, x.reference_number ≠ ref) :
    store.find? (fun x => x.reference_number == ref) = none := by
  induction store with
  | nil => rfl
  | cons a as ih =>
    have ha : (a.reference_number == ref) = false :=
      beq_eq_false_iff_ne.mpr (h a (List.mem_cons_self a as))
    rw [List.find?_cons_of_neg _ (by simp [ha]),
      ih (fun x hx => h x (List.mem_cons_of_mem a hx))]

/-- Inversion for a successful `apply_metering`: the stored record has
`status = "pending"` and both timestamps set to the creation time. -/
theorem applyMetering_ok_inv (u : ℕ) (form : MeteringForm) (now : ℕ) (d : String)
    (rn : ℕ) (a : MeteringApplication)
    (hok : applyMetering u form now d rn = .ok a) :
    a.status = some "pending" ∧ a.submitted_at = now ∧ a.updated_at = now := by
  rcases hsc : form.system_capacity with _ | cap
  · simp [applyMetering, hsc] at hok
  · simp only [applyMetering, hsc] at hok
    split at hok
    · exact absurd hok (by simp)
    · split at hok
      · exact absurd hok (by simp)
      · split at hok
        · exact absurd hok (by simp)
        · rw [applyMeteringDocs] at hok
          split at hok
          · exact absurd hok (by simp)
          · split at hok
            · exact absurd hok (by simp)
            · rw [Except.ok.injEq] at hok
              subst hok
              exact ⟨rfl, rfl, rfl⟩

/-- C7: a successfully created application, looked up through the status API
by its generated, store-unique reference code, yields the projection whose
`type`, `capacity` and `status` match what was stored at creation, with
status initially "pending"; and looking up a reference code with no matching
record yields the 404 signal (`none`). -/
theorem application_status_roundtrip
    (store : List MeteringApplication) (u : ℕ) (form : MeteringForm)
    (now : ℕ) (d : String) (rn : ℕ) (a : MeteringApplication)
    (hok : applyMetering u form now d rn = .ok a)
    (hfresh : ∀ x ∈ store, x.reference_number ≠ a.reference_number) :
    api_application_status (store ++ [a]) a.reference_number =
      some { reference_number := a.reference_number, type := a.application_type,
             capacity := a.system_capacity, status := some "pending",
             submitted_at := now, updated_at := now }
    ∧ a.status = some "pending"
    ∧ (∀ ref, (∀ x ∈ store, x.reference_number ≠ ref) →
        api_application_status store ref = none) := by
  obtain ⟨hst, hsub, hupd⟩ := applyMetering_ok_inv u form now d rn a hok
  refine ⟨?_, hst, fun ref h => ?_⟩
  · rw [api_application_status]
    have hfind : (store ++ [a]).find?
        (fun x => x.reference_number == a.reference_number) = some a := by
      rw [List.find?_append, find?_ref_none store _ hfresh]
      simp [List.find?]
    rw [hfind]
    simp [hst, hsub, hupd]
  · rw [api_application_status, find?_ref_none store ref h]

/-- Witness for C7: the concrete request `exampleMeteringForm` creates
`exampleMeteringApp`, whose reference round-trips through the status API. -/
theorem application_status_roundtrip_witness :
    applyMetering 7 exampleMeteringForm 11 "20251012" 1234 = .ok exampleMeteringApp
    ∧ (∀ x ∈ ([] : List MeteringApplication),
        x.reference_number ≠ exampleMeteringApp.reference_number)
    ∧ (api_application_status ([] ++ [exampleMeteringApp])
          exampleMeteringApp.reference_number =
        some { reference_number := exampleMeteringApp.reference_number,
               type := exampleMeteringApp.application_type,
               capacity := exampleMeteringApp.system_capacity,
               status := some "pending", submitted_at := 11, updated_at := 11 }
        ∧ exampleMeteringApp.status = some "pending"
        ∧ (∀ ref, (∀ x ∈ ([] : List MeteringApplication), x.reference_number ≠ ref) →
            api_application_status [] ref = none)) := by
  have hok : applyMetering 7 exampleMeteringForm 11 "20251012" 1234 =
      .ok exampleMeteringApp := by
    simp +decide [applyMetering, applyMeteringDocs, pyTruthyOptStr, base_docs,
      generate_reference, exampleMeteringForm, exampleMeteringApp]
    norm_num
  exact ⟨hok, by simp,
    application_status_roundtrip [] 7 exampleMeteringForm 11 "20251012" 1234
      exampleMeteringApp hok (by simp)⟩

theorem mem_uploaded_docs (form : MeteringForm) (dd : String) :
    dd ∈ uploaded_docs form ↔ dd ∈ doc_fields form ∧ dd ∈ form.uploads := by
  simp [uploaded_docs, List.mem_filter, List.elem_iff]

theorem mem_solar_uploaded_docs (sform : SolarSetupForm) (dd : String) :
    dd ∈ solar_uploaded_docs sform ↔ dd ∈ base_docs ∧ dd ∈ sform.uploads := by
  simp [solar_uploaded_docs, List.mem_filter, List.elem_iff]

theorem missing_docs_mem (form : MeteringForm) (dd : String)
    (hreq : dd ∈ required_docs form) (hnup : dd ∉ form.uploads) :
    displayName dd ∈ missing_docs form := by
  refine List.mem_map_of_mem displayName (List.mem_filter.mpr ⟨hreq, ?_⟩)
  simp only [Bool.not_eq_true', ← Bool.not_eq_true, List.elem_iff]
  intro hmem
  exact hnup ((mem_uploaded_docs form dd).mp hmem).2

theorem missing_docs_eq_nil (form : MeteringForm)
    (hall : ∀ dd ∈ required_docs form, dd ∈ uploaded_docs form) :
    missing_docs form = [] := by
  rw [missing_docs, List.map_eq_nil_iff, List.filter_eq_nil_iff]
  intro dd hdd
  simp only [Bool.not_eq_true', ← Bool.not_eq_true, List.elem_iff, not_not]
  exact hall dd hdd

theorem solar_missing_docs_mem (sform : SolarSetupForm) (dd : String)
    (hbase : dd ∈ base_docs) (hnup : dd ∉ sform.uploads) :
    displayName dd ∈ solar_missing_docs sform := by
  refine List.mem_map_of_mem displayName (List.mem_filter.mpr ⟨hbase, ?_⟩)
  simp only [Bool.not_eq_true', ← Bool.not_eq_true, List.elem_iff]
  intro hmem
  exact hnup ((mem_solar_uploaded_docs sform dd).mp hmem).2

theorem solar_missing_docs_eq_nil (sform : SolarSetupForm)
    (hall : ∀ dd ∈ base_docs, dd ∈ sform.uploads) :
    solar_missing_docs sform = [] := by
  rw [solar_missing_docs, List.map_eq_nil_iff, List.filter_eq_nil_iff]
  intro dd hdd
  simp only [Bool.not_eq_true', ← Bool.not_eq_true, List.elem_iff, not_not]
  exact (mem_solar_uploaded_docs sform dd).mpr ⟨hdd, hall dd hdd⟩

/-- A form that passes the three field validations reaches the document
stage. -/
theorem applyMetering_eq_docs (u : ℕ) (form : MeteringForm) (now : ℕ) (d : String)
    (rn : ℕ) (cap : ℚ) (hcap : form.system_capacity = some cap)
    (htype : pyTruthyOptStr form.application_type = true)
    (haddr : pyTruthyOptStr form.property_address = true)
    (h1 : 1 ≤ cap) (h50 : cap ≤ 50)
    (hnet : form.application_type = some "net" → 5 ≤ cap) :
    applyMetering u form now d rn = applyMeteringDocs u form now d rn cap := by
  have hne : cap ≠ 0 := by intro h; rw [h] at h1; norm_num at h1
  simp only [applyMetering, hcap]
  rw [if_neg (by simp [htype, haddr, hne]),
    if_neg (by push_neg; exact ⟨h1, h50⟩),
    if_neg (by rintro ⟨ht, hlt⟩; exact absurd hlt (not_lt.mpr (hnet ht)))]

/-- C3 counterexample: a create request with `application_type =
"simple_solar"` and `ownership_type = "owner"` submitted through the metering
intake, carrying exactly the base three documents, is rejected for a missing
`land_ownership` — the owner branch appends `land_ownership` for every
application type, contradicting "plus land_ownership when application_type ≠
simple_solar and ownership_type = owner ... a simple_solar application
requires only the base three documents". -/
theorem simple_solar_owner_requires_land :
    applyMetering 1
      { application_type := some "simple_solar", system_capacity := some 5,
        consumption_units := some 300, property_type := some "residential",
        property_address := some "123 Street", ownership_type := some "owner",
        noc_message := none,
        uploads := ["electricity_bill", "cnic_front", "cnic_back"] }
      0 "20251012" 1234 = .error (.missingDocuments ["Land Ownership"]) := by
  simp +decide [applyMetering, applyMeteringDocs, ownership_type_of, uploaded_docs,
    doc_fields, required_docs, missing_docs, pyTruthyOptStr, base_docs, displayName]

/-- C3 amended: for every create request that passes the field validations,
the metering route requires exactly the base three documents plus
`land_ownership` whenever the ownership resolves to `owner` — regardless of
`application_type`, including `simple_solar` submitted through it; a tenant
must supply an uploaded `noc_document` or a nonempty NOC message and
otherwise exactly the base three; the dedicated simple-solar route requires
exactly the base three and never `land_ownership` or NOC; every
missing-document failure lists the missing human-readable names. -/
theorem intake_document_requirements
    (u : ℕ) (form : MeteringForm) (now : ℕ) (d : String) (rn : ℕ) (cap : ℚ)
    (hcap : form.system_capacity = some cap)
    (htype : pyTruthyOptStr form.application_type = true)
    (haddr : pyTruthyOptStr form.property_address = true)
    (h1 : 1 ≤ cap) (h50 : cap ≤ 50)
    (hnet : form.application_type = some "net" → 5 ≤ cap)
    (sform : SolarSetupForm) (scap : ℚ)
    (hscap : sform.system_capacity = some scap)
    (hs1 : 1 ≤ scap) (hs50 : scap ≤ 50)
    (hsaddr : sform.property_address.getD "" ≠ "") :
    DocumentPolicy u form now d rn ∧ SolarDocumentPolicy u sform now d rn := by
  have hdocs := applyMetering_eq_docs u form now d rn cap hcap htype haddr h1 h50 hnet
  constructor
  · refine ⟨rfl, ?_, ?_, ?_, ?_, ?_⟩
    · intro hown dd hreq hnup
      refine ⟨missing_docs form, ?_, missing_docs_mem form dd hreq hnup⟩
      rw [hdocs, applyMeteringDocs, if_neg (by simp [hown]),
        if_pos (List.ne_nil_of_mem (missing_docs_mem form dd hreq hnup))]
    · intro hown hall
      have hdf : doc_fields form = required_docs form := by
        simp [doc_fields, required_docs, hown]
      have hmiss : missing_docs form = [] := missing_docs_eq_nil form
        (fun dd hreq => (mem_uploaded_docs form dd).mpr ⟨hdf ▸ hreq, hall dd hreq⟩)
      rw [hdocs, applyMeteringDocs, if_neg (by simp [hown]),
        if_neg (not_not_intro hmiss)]
      exact ⟨_, rfl⟩
    · intro hown hnoc hstrip
      rw [hdocs, applyMeteringDocs, if_pos ⟨hown, fun hmem =>
        hnoc ((mem_uploaded_docs form _).mp hmem).2, hstrip⟩]
    · intro hown halt hall
      have hno : ¬ ownership_type_of form = "owner" := by rw [hown]; decide
      have hcond : ¬ (ownership_type_of form = "tenant"
          ∧ "noc_document" ∉ uploaded_docs form
          ∧ pyStrip (form.noc_message.getD "") = "") := by
        rintro ⟨-, hnup, hstrip⟩
        rcases halt with hin | hne
        · exact hnup ((mem_uploaded_docs form _).mpr
            ⟨by simp [doc_fields, hno], hin⟩)
        · exact hne hstrip
      have hreq : required_docs form = base_docs := by
        simp [required_docs, hno]
      have hmiss : missing_docs form = [] := missing_docs_eq_nil form
        (fun dd hdd => (mem_uploaded_docs form dd).mpr
          ⟨by simp [doc_fields]; left; exact hreq ▸ hdd,
            hall dd (hreq ▸ hdd)⟩)
      rw [hdocs, applyMeteringDocs, if_neg hcond, if_neg (not_not_intro hmiss)]
      exact ⟨_, rfl⟩
    · intro hown halt dd hbase hnup
      have hno : ¬ ownership_type_of form = "owner" := by rw [hown]; decide
      have hcond : ¬ (ownership_type_of form = "tenant"
          ∧ "noc_document" ∉ uploaded_docs form
          ∧ pyStrip (form.noc_message.getD "") = "") := by
        rintro ⟨-, hnup2, hstrip⟩
        rcases halt with hin | hne
        · exact hnup2 ((mem_uploaded_docs form _).mpr
            ⟨by simp [doc_fields, hno], hin⟩)
        · exact hne hstrip
      have hreq : required_docs form = base_docs := by
        simp [required_docs, hno]
      refine ⟨missing_docs form, ?_, missing_docs_mem form dd (hreq ▸ hbase) hnup⟩
      rw [hdocs, applyMeteringDocs, if_neg hcond,
        if_pos (List.ne_nil_of_mem (missing_docs_mem form dd (hreq ▸ hbase) hnup))]
  · have hsne : scap ≠ 0 := by intro h; rw [h] at hs1; norm_num at hs1
    constructor
    · intro hall
      have hmiss : solar_missing_docs sform = [] :=
        solar_missing_docs_eq_nil sform hall
      rw [applySolarSetup, if_neg (by simp [hscap, hsne, hsaddr]),
        if_neg (by rw [hscap]; push_neg; exact ⟨hs1, hs50⟩),
        if_neg (not_not_intro hmiss)]
      exact ⟨_, rfl, rfl⟩
    · intro dd hbase hnup
      refine ⟨solar_missing_docs sform, ?_, solar_missing_docs_mem sform dd hbase hnup⟩
      rw [applySolarSetup, if_neg (by simp [hscap, hsne, hsaddr]),
        if_neg (by rw [hscap]; push_neg; exact ⟨hs1, hs50⟩),
        if_pos (List.ne_nil_of_mem (solar_missing_docs_mem sform dd hbase hnup))]

/-- Witness for the C3 amended theorem at a concrete owner form and a
concrete simple-solar form. -/
theorem intake_document_requirements_witness :
    (exampleMeteringForm.system_capacity = some 5
      ∧ pyTruthyOptStr exampleMeteringForm.application_type = true
      ∧ pyTruthyOptStr exampleMeteringForm.property_address = true
      ∧ (1 : ℚ) ≤ 5 ∧ (5 : ℚ) ≤ 50)
    ∧ DocumentPolicy 1 exampleMeteringForm 0 "20251012" 1234
    ∧ SolarDocumentPolicy 1
        { system_capacity := some 5, property_address := some "456 Avenue",
          property_type := some "residential", consumption_units := some 200,
          uploads := ["electricity_bill", "cnic_front", "cnic_back"] }
        0 "20251012" 1234 := by
  have h := intake_document_requirements 1 exampleMeteringForm 0 "20251012" 1234 5
    (by decide) (by decide) (by decide) (by norm_num) (by norm_num)
    (fun _ => by norm_num)
    { system_capacity := some 5, property_address := some "456 Avenue",
      property_type := some "residential", consumption_units := some 200,
      uploads := ["electricity_bill", "cnic_front", "cnic_back"] } 5
    (by decide) (by norm_num) (by norm_num) (by decide)
  exact ⟨⟨by decide, by decide, by decide, by norm_num, by norm_num⟩, h.1, h.2⟩

end SolarApp

